import Mathlib

/-!
Verification of the viewport-driven interaction engine of this repository:
the scroll-trigger hook (`useScrollTrigger`), the native-scroll fallback of
`useLenis`, the `PinScrollTrigger` and `SnapScrollTrigger` components, and
the `MagneticEffect` pointer handlers.  JavaScript numbers are modelled as
rationals (`ℚ`); the square-root comparison `Math.sqrt(dx*dx+dy*dy) <= range`
is embedded as the equivalent `0 <= range ∧ dx^2+dy^2 <= range^2`.
-/

namespace ScrollEngine

/-- From `useScrollTrigger` (the `progress` memo):
`if (scrollTop < start) return 0; if (scrollTop > end) return 1;
return (scrollTop - start) / (end - start);`
(`PinScrollTrigger` computes its `progress` with the same code). -/
def triggerProgress (start end_ scroll : ℚ) : ℚ :=
  if scroll < start then 0
  else if scroll > end_ then 1
  else (scroll - start) / (end_ - start)

/-- From `useScrollTrigger` (the `isActive` memo):
`scrollData.scroll >= start && scrollData.scroll <= end`
(`PinScrollTrigger` computes its `shouldPin` with the same code). -/
def triggerIsActive (start end_ scroll : ℚ) : Bool :=
  decide (scroll ≥ start) && decide (scroll ≤ end_)

/-- Spec-side clamp of a value to the interval [0, 1]. -/
def clamp01 (x : ℚ) : ℚ := min 1 (max 0 x)

/-- The four toggle-action callbacks declared in `ScrollTriggerCallbacks`
(`onEnter`, `onLeave`, `onEnterBack`, `onLeaveBack`). -/
inductive ToggleCallback where
  | onEnter
  | onLeave
  | onEnterBack
  | onLeaveBack
deriving DecidableEq, Repr

/-- From the toggle-action effect of `useScrollTrigger`: with `isActive` the
freshly computed state and `prevActive` the previous instance state, it runs
`if (isActive && !instance?.isActive) { ... callbacks?.onEnter?.(...) }
else if (!isActive && instance?.isActive) { ... callbacks?.onLeave?.(...) }`;
no other callback of the set is ever invoked. -/
def toggleEffect (isActive prevActive : Bool) : Option ToggleCallback :=
  if isActive && !prevActive then some .onEnter
  else if !isActive && prevActive then some .onLeave
  else none

/-- The `LenisScrollData` record of `useLenis`:
`{ scroll, velocity, direction: 1 | -1, progress }`. -/
structure LenisScrollData where
  scroll : ℚ
  velocity : ℚ
  direction : Int
  progress : ℚ
deriving DecidableEq, Repr

/-- From the native-scroll fallback of `useLenis` (`handleScroll`):
`scroll = window.scrollY`, `maxScroll = scrollHeight - innerHeight`,
`progress = maxScroll > 0 ? scroll / maxScroll : 0`, and the updater
`prev => ({ scroll, velocity: scroll - prev.scroll,
direction: scroll > prev.scroll ? 1 : -1, progress })`. -/
def fallbackHandleScroll (scroll maxScroll : ℚ) (prev : LenisScrollData) :
    LenisScrollData :=
  let progress := if maxScroll > 0 then scroll / maxScroll else 0
  { scroll := scroll
    velocity := scroll - prev.scroll
    direction := if scroll > prev.scroll then 1 else -1
    progress := progress }

/-- JavaScript `v || 0` for an optional numeric property: 0 when the property
is absent or its value is falsy (0), the value otherwise.  This models
`from[key] || 0` in the scrub effect. -/
def jsOrZero : Option ℚ → ℚ
  | none => 0
  | some v => if v = 0 then 0 else v

/-- First-match lookup of a property key in a record modelled as an
association list (JavaScript object keys are unique, so first-match agrees
with object access). -/
def lookupProp : List (String × ℚ) → String → Option ℚ
  | [], _ => none
  | (k, v) :: rest, key => if k = key then some v else lookupProp rest key

/-- From the scrub effect of `useScrollTrigger`:
`Object.keys(to).forEach(key => { const fromValue = from[key] || 0;
const toValue = to[key];
interpolatedValues[key] = fromValue + (toValue - fromValue) * progress; })`. -/
def interpolatedValues (fromProps toProps : List (String × ℚ)) (progress : ℚ) :
    List (String × ℚ) :=
  toProps.map (fun kv =>
    let fromValue := jsOrZero (lookupProp fromProps kv.1)
    (kv.1, fromValue + (kv.2 - fromValue) * progress))

/-- From the guard of the scrub effect:
`if (config.trigger.scrub && isActive) { ... controls.set(interpolatedValues) }`;
`none` models the absence of any `controls.set` call. -/
def scrubUpdate (scrub isActive : Bool) (fromProps toProps : List (String × ℚ))
    (progress : ℚ) : Option (List (String × ℚ)) :=
  if scrub && isActive then some (interpolatedValues fromProps toProps progress)
  else none

/-- `Math.abs(snapPoints[i] - currentProgress)` as used inside the
`SnapScrollTrigger` reducer (out-of-range access modelled with default 0;
the reducer only ever reads valid indices on a non-empty list). -/
def snapDist (snapPoints : List ℚ) (p : ℚ) (i : ℕ) : ℚ :=
  |snapPoints.getD i 0 - p|

/-- One step of the `SnapScrollTrigger` reducer:
`Math.abs(curr - currentProgress) < Math.abs(snapPoints[prev] - currentProgress)
? index : prev` where `curr = snapPoints[index]`. -/
def snapStep (snapPoints : List ℚ) (p : ℚ) (prev i : ℕ) : ℕ :=
  if snapDist snapPoints p i < snapDist snapPoints p prev then i else prev

/-- The reducer of `SnapScrollTrigger` run over the first `m` indices,
starting from the initial accumulator 0 (helper for reasoning about
`closestSnap` by induction on the prefix length). -/
def snapFoldAux (snapPoints : List ℚ) (p : ℚ) (m : ℕ) : ℕ :=
  (List.range m).foldl (snapStep snapPoints p) 0

/-- From `SnapScrollTrigger`:
`snapPoints.reduce((prev, curr, index) => Math.abs(curr - currentProgress) <
Math.abs(snapPoints[prev] - currentProgress) ? index : prev, 0)`. -/
def closestSnap (snapPoints : List ℚ) (p : ℚ) : ℕ :=
  (List.range snapPoints.length).foldl (snapStep snapPoints p) 0

/-- The `animate` target of `SnapScrollTrigger`: `y: -${activeSnap * 100}%`,
i.e. a vertical translation of `-(index * 100)` percent. -/
def snapTranslateYPercent (snapPoints : List ℚ) (p : ℚ) : ℚ :=
  -((closestSnap snapPoints p : ℚ) * 100)

/-- The CSS `height` style of the `PinScrollTrigger` container: either
`'auto'` or a pixel length. -/
inductive CssHeight where
  | auto
  | px (value : ℚ)
deriving DecidableEq, Repr

/-- The positioning of the pinned content (`'fixed top-0 left-0 w-full z-10'`
versus `'relative'` in the className). -/
inductive CssPosition where
  | fixed
  | relative
deriving DecidableEq, Repr

/-- The CSS `transform` style of the pinned content: `'none'` or
`translateY(<value>px)`. -/
inductive CssTransform where
  | none
  | translateY (value : ℚ)
deriving DecidableEq, Repr

/-- The rendered output of `PinScrollTrigger` that the pin claims are about:
the container (placeholder) height, and the content's position and
transform. -/
structure PinRender where
  containerHeight : CssHeight
  contentPosition : CssPosition
  contentTransform : CssTransform
deriving DecidableEq, Repr

/-- From the JSX of `PinScrollTrigger` (in its steady state, where the
`isPinned` state equals `shouldPin = scroll >= start && scroll <= end`):
container style `height: config.pinSpacing !== false ?
(end - start + window.innerHeight)px : 'auto'`; content className
`isPinned ? 'fixed top-0 left-0 w-full z-10' : 'relative'`; content style
`transform: isPinned ? translateY(Math.max(0, scroll - start)px) : 'none'`. -/
def pinRender (pinSpacing : Option Bool) (start end_ innerHeight scroll : ℚ) :
    PinRender :=
  let isPinned := triggerIsActive start end_ scroll
  { containerHeight :=
      if pinSpacing ≠ some false then CssHeight.px (end_ - start + innerHeight)
      else CssHeight.auto
    contentPosition :=
      if isPinned then CssPosition.fixed else CssPosition.relative
    contentTransform :=
      if isPinned then CssTransform.translateY (max 0 (scroll - start))
      else CssTransform.none }

/-- The `behavior` field of `MagneticConfig`: `'follow' | 'attract' | 'repel'`. -/
inductive MagneticBehavior where
  | follow
  | attract
  | repel
deriving DecidableEq, Repr

/-- Spec-side multiplier of the behavior transform: `attract` leaves the raw
effect unchanged, `repel` negates it, `follow` doubles it. -/
def behaviorFactor : MagneticBehavior → ℚ
  | .attract => 1
  | .repel => -1
  | .follow => 2

/-- From `transformX`/`transformY` of `MagneticEffect` (both axes run the
identical code on their own motion value):
`if (disabled || !isHovering) return 0; const distance = Math.abs(value);
if (distance > range) return 0;
const intensity = Math.max(0, 1 - distance / range);
const effect = value * strength * intensity;
switch (behavior) { case 'repel': return -effect;
case 'follow': return effect * 2; case 'attract': default: return effect; }`. -/
def transformAxis (disabled isHovering : Bool) (strength range : ℚ)
    (behavior : MagneticBehavior) (value : ℚ) : ℚ :=
  if disabled || !isHovering then 0
  else
    let distance := |value|
    if distance > range then 0
    else
      let intensity := max 0 (1 - distance / range)
      let effect := value * strength * intensity
      match behavior with
      | .repel => -effect
      | .follow => effect * 2
      | .attract => effect

/-- The comparison `Math.sqrt(dx*dx + dy*dy) <= range` of the pointer
handlers of `MagneticEffect`, embedded over ℚ without square roots:
`sqrt(s) <= range` holds exactly when `0 <= range` and `s <= range^2`. -/
def withinRangeB (range dx dy : ℚ) : Bool :=
  decide (0 ≤ range) && decide (dx ^ 2 + dy ^ 2 ≤ range ^ 2)

/-- The mutable state of `MagneticEffect` touched by the pointer handlers:
the `isHovering` React state, the `mouseX`/`mouseY` motion values (the spring
targets), and the `mousePosition` React state. -/
structure MagneticState where
  isHovering : Bool
  mouseX : ℚ
  mouseY : ℚ
  mousePosX : ℚ
  mousePosY : ℚ
deriving DecidableEq, Repr

/-- From `handleMouseMove` of `MagneticEffect`: guard `if (disabled || ...)
return;`, compute `deltaX/deltaY` from the element center, record
`setMousePosition`, then `if (distance <= range) { if (!isHovering)
{ setIsHovering(true); onHover?.(true); } mouseX.set(deltaX);
mouseY.set(deltaY); } else { if (isHovering) { setIsHovering(false);
onHover?.(false); mouseX.set(0); mouseY.set(0); } }`.  The second component
lists the arguments of the `onHover` calls made, in order. -/
def handleMouseMove (disabled : Bool) (range clientX clientY centerX centerY : ℚ)
    (s : MagneticState) : MagneticState × List Bool :=
  if disabled then (s, [])
  else
    let deltaX := clientX - centerX
    let deltaY := clientY - centerY
    let s1 := { s with mousePosX := clientX, mousePosY := clientY }
    if withinRangeB range deltaX deltaY then
      if !s1.isHovering then
        ({ s1 with isHovering := true, mouseX := deltaX, mouseY := deltaY }, [true])
      else
        ({ s1 with mouseX := deltaX, mouseY := deltaY }, [])
    else
      if s1.isHovering then
        ({ s1 with isHovering := false, mouseX := 0, mouseY := 0 }, [false])
      else (s1, [])

/-- From `handleTouchMove` of `MagneticEffect`: identical to
`handleMouseMove` except that there is no `else` branch — a touch sample
beyond `range` changes neither the hover state nor the motion values. -/
def handleTouchMove (disabled : Bool) (range clientX clientY centerX centerY : ℚ)
    (s : MagneticState) : MagneticState × List Bool :=
  if disabled then (s, [])
  else
    let deltaX := clientX - centerX
    let deltaY := clientY - centerY
    let s1 := { s with mousePosX := clientX, mousePosY := clientY }
    if withinRangeB range deltaX deltaY then
      if !s1.isHovering then
        ({ s1 with isHovering := true, mouseX := deltaX, mouseY := deltaY }, [true])
      else
        ({ s1 with mouseX := deltaX, mouseY := deltaY }, [])
    else (s1, [])

/-- From `handleTouchEnd` of `MagneticEffect`: `if (disabled) return;
setIsHovering(false); onHover?.(false); mouseX.set(0); mouseY.set(0);`. -/
def handleTouchEnd (disabled : Bool) (s : MagneticState) :
    MagneticState × List Bool :=
  if disabled then (s, [])
  else ({ s with isHovering := false, mouseX := 0, mouseY := 0 }, [false])

/-! ## Helper lemmas -/

/-- `triggerIsActive` decoded as a proposition. -/
theorem triggerIsActive_eq_true (start end_ scroll : ℚ) :
    triggerIsActive start end_ scroll = true ↔ start ≤ scroll ∧ scroll ≤ end_ := by
  simp [triggerIsActive, ge_iff_le, and_comm]

/-- `triggerIsActive` is false exactly outside the window. -/
theorem triggerIsActive_eq_false (start end_ scroll : ℚ) :
    triggerIsActive start end_ scroll = false ↔
      ¬(start ≤ scroll ∧ scroll ≤ end_) := by
  rw [← triggerIsActive_eq_true, Bool.not_eq_true]

/-! ## Claims -/

/-- C1: for resolved boundaries with `start < end`, the derived progress
equals `clamp((scroll-start)/(end-start), 0, 1)` at every scroll value. -/
theorem progress_eq_clamp (start end_ scroll : ℚ) (h : start < end_) :
    triggerProgress start end_ scroll = clamp01 ((scroll - start) / (end_ - start)) := by
  have hd : (0:ℚ) < end_ - start := by linarith
  unfold triggerProgress clamp01
  by_cases h1 : scroll < start
  · have hnum : scroll - start < 0 := by linarith
    have hratio : (scroll - start) / (end_ - start) < 0 := div_neg_of_neg_of_pos hnum hd
    rw [if_pos h1]
    rw [max_eq_left (le_of_lt hratio), min_eq_right (by norm_num : (0:ℚ) ≤ 1)]
  · rw [if_neg h1]
    by_cases h2 : scroll > end_
    · have hnum : end_ - start ≤ scroll - start := by linarith
      have hratio : (1:ℚ) ≤ (scroll - start) / (end_ - start) := by
        rw [le_div_iff₀ hd]; linarith
      rw [if_pos h2]
      have h0 : (0:ℚ) ≤ (scroll - start) / (end_ - start) := by linarith
      rw [max_eq_right h0, min_eq_left hratio]
    · have hs : start ≤ scroll := le_of_not_lt h1
      have he : scroll ≤ end_ := le_of_not_lt h2
      have h0 : (0:ℚ) ≤ (scroll - start) / (end_ - start) :=
        div_nonneg (by linarith) (le_of_lt hd)
      have h1' : (scroll - start) / (end_ - start) ≤ 1 := by
        rw [div_le_one hd]; linarith
      rw [if_neg h2, max_eq_right h0, min_eq_right h1']

/-- C1 witness: at start=100, end=300 the hypothesis holds and the progress
at scroll=200 matches the clamp formula (value 0.5). -/
theorem progress_eq_clamp_witness :
    (100:ℚ) < 300 ∧
      triggerProgress 100 300 200 = clamp01 ((200 - 100) / (300 - 100)) :=
  ⟨by norm_num, progress_eq_clamp 100 300 200 (by norm_num)⟩

/-- C2 counterexample: with start=100, end=300, the previous sample at
scroll=400 is past the window (state `after`) and the new sample at
scroll=200 is inside it, i.e. scroll crossed `end` downward; the code
invokes `onEnter`, not the `onEnterBack` the claim requires. -/
theorem toggleEffect_enterBack_counterexample :
    (400:ℚ) > 300 ∧
    triggerIsActive 100 300 400 = false ∧
    triggerIsActive 100 300 200 = true ∧
    toggleEffect (triggerIsActive 100 300 200) (triggerIsActive 100 300 400) =
      some ToggleCallback.onEnter ∧
    some ToggleCallback.onEnter ≠ some ToggleCallback.onEnterBack := by
  refine ⟨by norm_num, ?_, ?_, ?_, by decide⟩ <;>
    · simp [triggerIsActive, toggleEffect]; norm_num

/-- C2 amended: every transition from inactive to active invokes exactly
`onEnter` (in both scroll directions), every transition from active to
inactive invokes exactly `onLeave`; `onEnterBack` and `onLeaveBack` are never
invoked; and re-evaluating the same scroll value invokes nothing. -/
theorem toggleEffect_amended (start end_ prevScroll scroll : ℚ) :
    (toggleEffect (triggerIsActive start end_ scroll)
        (triggerIsActive start end_ scroll) = none) ∧
    (triggerIsActive start end_ prevScroll = false →
      triggerIsActive start end_ scroll = true →
      toggleEffect (triggerIsActive start end_ scroll)
        (triggerIsActive start end_ prevScroll) = some ToggleCallback.onEnter) ∧
    (triggerIsActive start end_ prevScroll = true →
      triggerIsActive start end_ scroll = false →
      toggleEffect (triggerIsActive start end_ scroll)
        (triggerIsActive start end_ prevScroll) = some ToggleCallback.onLeave) ∧
    (toggleEffect (triggerIsActive start end_ scroll)
        (triggerIsActive start end_ prevScroll) ≠ some ToggleCallback.onEnterBack) ∧
    (toggleEffect (triggerIsActive start end_ scroll)
        (triggerIsActive start end_ prevScroll) ≠ some ToggleCallback.onLeaveBack) := by
  refine ⟨?_, ?_, ?_, ?_, ?_⟩ <;>
    cases hc : triggerIsActive start end_ scroll <;>
      cases hp : triggerIsActive start end_ prevScroll <;>
        simp [toggleEffect]

/-- C2 amended witness: entering the window from above (prev scroll 400,
new scroll 200, window [100, 300]) invokes `onEnter`. -/
theorem toggleEffect_amended_witness :
    toggleEffect (triggerIsActive 100 300 200) (triggerIsActive 100 300 400) =
      some ToggleCallback.onEnter :=
  (toggleEffect_amended 100 300 400 200).2.1
    (by simp [triggerIsActive]; norm_num) (by simp [triggerIsActive]; norm_num)

/-- C4: after every update, `isActive` holds exactly when
`start <= scroll <= end`, including at the boundary values themselves. -/
theorem isActive_iff (start end_ scroll : ℚ) :
    triggerIsActive start end_ scroll = true ↔ start ≤ scroll ∧ scroll ≤ end_ :=
  triggerIsActive_eq_true start end_ scroll

/-- C5 counterexample: the window start=100, end=100 satisfies `end <= start`,
yet at scroll=100 the trigger is active, so a degenerate trigger is not
"never active". -/
theorem degenerate_active_counterexample :
    (100:ℚ) ≤ 100 ∧ triggerIsActive 100 100 100 = true := by
  constructor
  · norm_num
  · simp [triggerIsActive]

/-- C5 amended: for a strictly inverted window (`end < start`) the trigger is
never active, and progress is 0 below start and 1 at or after start.  (At
`end = start` exactly, the trigger is active at `scroll = start` and the
progress expression there is the indeterminate 0/0.) -/
theorem degenerate_trigger_amended (start end_ scroll : ℚ) (h : end_ < start) :
    triggerIsActive start end_ scroll = false ∧
    (scroll < start → triggerProgress start end_ scroll = 0) ∧
    (start ≤ scroll → triggerProgress start end_ scroll = 1) := by
  refine ⟨?_, ?_, ?_⟩
  · rw [triggerIsActive_eq_false]
    rintro ⟨hs, he⟩
    linarith
  · intro hlt
    simp [triggerProgress, hlt]
  · intro hge
    have h1 : ¬scroll < start := not_lt.mpr hge
    have h2 : scroll > end_ := by linarith
    simp [triggerProgress, h1, h2]

/-- C5 amended witness: with start=100, end=50 (end < start), scroll=70 is
inactive and has progress 0, being below start. -/
theorem degenerate_trigger_amended_witness :
    (50:ℚ) < 100 ∧
      (triggerIsActive 100 50 70 = false ∧ triggerProgress 100 50 70 = 0) :=
  ⟨by norm_num,
    ⟨(degenerate_trigger_amended 100 50 70 (by norm_num)).1,
      (degenerate_trigger_amended 100 50 70 (by norm_num)).2.1 (by norm_num)⟩⟩

/-- C6 counterexample: with previous scroll 200, a sample at scroll 200 and
maxScroll 50 has `Δscroll = 0` but direction `-1` (while `sign 0 = 0`), and
progress `4`, which is not the clamped value `clamp(200/50, 0, 1) = 1`. -/
theorem fallback_sample_counterexample :
    (fallbackHandleScroll 200 50 ⟨200, 0, 1, 0⟩).velocity = 0 ∧
    (fallbackHandleScroll 200 50 ⟨200, 0, 1, 0⟩).direction ≠ Int.sign 0 ∧
    (fallbackHandleScroll 200 50 ⟨200, 0, 1, 0⟩).progress ≠
      min 1 (max 0 ((200:ℚ) / 50)) := by
  refine ⟨by simp [fallbackHandleScroll], by simp [fallbackHandleScroll], ?_⟩
  simp only [fallbackHandleScroll]
  norm_num

/-- C6 amended: in the fallback mode, `velocity = Δscroll`; `direction` is 1
when the scroll increased and -1 otherwise (so -1, not `sign 0 = 0`, when
`Δscroll = 0`); `progress = scroll / maxScroll` without clamping whenever
`maxScroll > 0`, and it agrees with the clamped value only on the sub-domain
`0 <= scroll <= maxScroll`. -/
theorem fallback_sample_amended (scroll maxScroll : ℚ) (prev : LenisScrollData)
    (h : 0 < maxScroll) :
    (fallbackHandleScroll scroll maxScroll prev).velocity = scroll - prev.scroll ∧
    (fallbackHandleScroll scroll maxScroll prev).direction =
      (if prev.scroll < scroll then 1 else -1) ∧
    (fallbackHandleScroll scroll maxScroll prev).progress = scroll / maxScroll ∧
    (0 ≤ scroll → scroll ≤ maxScroll →
      (fallbackHandleScroll scroll maxScroll prev).progress =
        min 1 (max 0 (scroll / maxScroll))) := by
  refine ⟨rfl, ?_, ?_, ?_⟩
  · simp [fallbackHandleScroll, gt_iff_lt]
  · simp [fallbackHandleScroll, h]
  · intro h0 h1
    have hnn : (0:ℚ) ≤ scroll / maxScroll := div_nonneg h0 (le_of_lt h)
    have hle : scroll / maxScroll ≤ 1 := by
      rw [div_le_one h]; exact h1
    simp [fallbackHandleScroll, h, max_eq_right hnn, min_eq_right hle]

/-- C6 amended witness: maxScroll=1000 > 0; at scroll 300 after scroll 100
the sample has velocity 200, direction 1, progress 3/10, equal to its clamp. -/
theorem fallback_sample_amended_witness :
    (fallbackHandleScroll 300 1000 ⟨100, 0, 1, 1/10⟩).velocity = 300 - 100 ∧
    (fallbackHandleScroll 300 1000 ⟨100, 0, 1, 1/10⟩).direction =
      (if (100:ℚ) < 300 then 1 else -1) ∧
    (fallbackHandleScroll 300 1000 ⟨100, 0, 1, 1/10⟩).progress = 300 / 1000 ∧
    ((0:ℚ) ≤ 300 → (300:ℚ) ≤ 1000 →
      (fallbackHandleScroll 300 1000 ⟨100, 0, 1, 1/10⟩).progress =
        min 1 (max 0 ((300:ℚ) / 1000))) :=
  fallback_sample_amended 300 1000 ⟨100, 0, 1, 1/10⟩ (by norm_num)

theorem jsOrZero_some (v : ℚ) : jsOrZero (some v) = v := by
  by_cases h : v = 0 <;> simp [jsOrZero, h]

theorem lookupProp_interpolatedValues (fromProps toProps : List (String × ℚ))
    (progress : ℚ) (key : String) (tv : ℚ)
    (hto : lookupProp toProps key = some tv) :
    lookupProp (interpolatedValues fromProps toProps progress) key =
      some (jsOrZero (lookupProp fromProps key) +
        (tv - jsOrZero (lookupProp fromProps key)) * progress) := by
  induction toProps with
  | nil => simp [lookupProp] at hto
  | cons kv rest ih =>
      by_cases hk : kv.1 = key
      · simp [lookupProp, hk] at hto
        simp [interpolatedValues, lookupProp, hk, hto]
      · simp [lookupProp, hk] at hto
        simpa [interpolatedValues, lookupProp, hk] using ih hto

/-- C7: while a trigger with `scrub` set is active, every property declared in
`animation.to` with a counterpart in `animation.from` is set to
`from + (to - from) * progress` at the current progress. -/
theorem scrub_linear_interpolation (start end_ scroll : ℚ)
    (fromProps toProps : List (String × ℚ)) (key : String) (fv tv : ℚ)
    (hactive : triggerIsActive start end_ scroll = true)
    (hfrom : lookupProp fromProps key = some fv)
    (hto : lookupProp toProps key = some tv) :
    ∃ vals,
      scrubUpdate true (triggerIsActive start end_ scroll) fromProps toProps
          (triggerProgress start end_ scroll) = some vals ∧
      lookupProp vals key =
        some (fv + (tv - fv) * triggerProgress start end_ scroll) := by
  refine ⟨interpolatedValues fromProps toProps (triggerProgress start end_ scroll),
    ?_, ?_⟩
  · simp [scrubUpdate, hactive]
  · rw [lookupProp_interpolatedValues fromProps toProps _ key tv hto, hfrom,
      jsOrZero_some]

/-- C7 witness: window [100, 300], scroll 200 (active, progress 0.5),
`from = {opacity: 0}`, `to = {opacity: 1}`: the applied opacity is
`0 + (1 - 0) * 0.5`. -/
theorem scrub_linear_interpolation_witness :
    ∃ vals,
      scrubUpdate true (triggerIsActive 100 300 200) [("opacity", 0)]
          [("opacity", 1)] (triggerProgress 100 300 200) = some vals ∧
      lookupProp vals "opacity" =
        some (0 + (1 - 0) * triggerProgress 100 300 200) :=
  scrub_linear_interpolation 100 300 200 [("opacity", 0)] [("opacity", 1)]
    "opacity" 0 1 (by simp [triggerIsActive]; norm_num)
    (by simp [lookupProp]) (by simp [lookupProp])

theorem snapFoldAux_zero (l : List ℚ) (p : ℚ) : snapFoldAux l p 0 = 0 := rfl

theorem snapFoldAux_succ (l : List ℚ) (p : ℚ) (m : ℕ) :
    snapFoldAux l p (m + 1) = snapStep l p (snapFoldAux l p m) m := by
  unfold snapFoldAux
  rw [List.range_succ, List.foldl_append, List.foldl_cons, List.foldl_nil]

/-- Invariant of the `SnapScrollTrigger` reducer over the first `m` indices:
the accumulator is a valid index, no inspected index is strictly closer, and
every index before the accumulator is strictly farther (first-occurrence
tie-breaking by the strict `<` comparison). -/
theorem snapFoldAux_spec (l : List ℚ) (p : ℚ) (m : ℕ) (hm : 0 < m) :
    snapFoldAux l p m < m ∧
    (∀ i < m, snapDist l p (snapFoldAux l p m) ≤ snapDist l p i) ∧
    (∀ i < snapFoldAux l p m, snapDist l p (snapFoldAux l p m) < snapDist l p i) := by
  induction m with
  | zero => exact absurd hm (lt_irrefl 0)
  | succ n ih =>
      by_cases hn : n = 0
      · subst hn
        have h0 : snapFoldAux l p 1 = 0 := by
          rw [snapFoldAux_succ, snapFoldAux_zero, snapStep, if_neg (lt_irrefl _)]
        rw [h0]
        refine ⟨Nat.zero_lt_one, ?_, ?_⟩
        · intro i hi
          have : i = 0 := Nat.lt_one_iff.mp hi
          rw [this]
        · intro i hi
          exact absurd hi (Nat.not_lt_zero i)
      · have hn' : 0 < n := Nat.pos_of_ne_zero hn
        obtain ⟨h1, h2, h3⟩ := ih hn'
        rw [snapFoldAux_succ, snapStep]
        by_cases hlt : snapDist l p n < snapDist l p (snapFoldAux l p n)
        · rw [if_pos hlt]
          refine ⟨Nat.lt_succ_self n, ?_, ?_⟩
          · intro i hi
            rcases Nat.lt_succ_iff_lt_or_eq.mp hi with hi' | hi'
            · exact le_of_lt (lt_of_lt_of_le hlt (h2 i hi'))
            · rw [hi']
          · intro i hi
            exact lt_of_lt_of_le hlt (h2 i hi)
        · rw [if_neg hlt]
          push_neg at hlt
          refine ⟨Nat.lt_succ_of_lt h1, ?_, h3⟩
          intro i hi
          rcases Nat.lt_succ_iff_lt_or_eq.mp hi with hi' | hi'
          · exact h2 i hi'
          · rw [hi']; exact hlt

/-- C8: on every scroll sample, `SnapScrollTrigger` selects a valid index
that minimizes `|snapPoints[i] - currentProgress|`, every strictly earlier
index being strictly farther (ties broken by first occurrence), and the
bound element is animated to a vertical translation of that index times
100%. -/
theorem snap_selects_argmin (snapPoints : List ℚ) (p : ℚ) (h : snapPoints ≠ []) :
    closestSnap snapPoints p < snapPoints.length ∧
    (∀ i < snapPoints.length,
      |snapPoints.getD (closestSnap snapPoints p) 0 - p| ≤ |snapPoints.getD i 0 - p|) ∧
    (∀ i < closestSnap snapPoints p,
      |snapPoints.getD (closestSnap snapPoints p) 0 - p| < |snapPoints.getD i 0 - p|) ∧
    snapTranslateYPercent snapPoints p = -((closestSnap snapPoints p : ℚ) * 100) := by
  have hlen : 0 < snapPoints.length := List.length_pos.mpr h
  have heq : closestSnap snapPoints p = snapFoldAux snapPoints p snapPoints.length :=
    rfl
  obtain ⟨h1, h2, h3⟩ := snapFoldAux_spec snapPoints p snapPoints.length hlen
  rw [heq]
  refine ⟨h1, ?_, ?_, rfl⟩
  · intro i hi
    have := h2 i hi
    simpa [snapDist] using this
  · intro i hi
    have := h3 i hi
    simpa [snapDist] using this

/-- C8 witness: with snapPoints=[0, 0.5, 1] the hypothesis holds; progress
0.3 selects index 1, progress 0.76 selects index 2, and at progress 0.3 the
selected index is valid and the element is translated by -100%. -/
theorem snap_selects_argmin_witness :
    ([(0:ℚ), 1/2, 1] ≠ []) ∧
    closestSnap [(0:ℚ), 1/2, 1] (3/10) = 1 ∧
    closestSnap [(0:ℚ), 1/2, 1] (19/25) = 2 ∧
    snapTranslateYPercent [(0:ℚ), 1/2, 1] (3/10) = -100 ∧
    closestSnap [(0:ℚ), 1/2, 1] (3/10) < ([(0:ℚ), 1/2, 1]).length :=
  ⟨by simp,
    by
      show (List.range 3).foldl (snapStep [(0:ℚ), 1/2, 1] (3/10)) 0 = 1
      norm_num [List.range_succ, snapStep, snapDist, abs_eq_max_neg],
    by
      show (List.range 3).foldl (snapStep [(0:ℚ), 1/2, 1] (19/25)) 0 = 2
      norm_num [List.range_succ, snapStep, snapDist, abs_eq_max_neg],
    by
      show -((((List.range 3).foldl (snapStep [(0:ℚ), 1/2, 1] (3/10)) 0 : ℕ) : ℚ) * 100) = -100
      norm_num [List.range_succ, snapStep, snapDist, abs_eq_max_neg],
    (snap_selects_argmin [0, 1/2, 1] (3/10) (by simp)).1⟩

/-- C9 counterexample: with `pinSpacing: false`, window [100, 300],
viewport height 800 and scroll 200 inside the window, the container height
is `'auto'`, not the claimed `(end - start) + viewportHeight = 1200`. -/
theorem pin_height_counterexample :
    ((100:ℚ) ≤ 200 ∧ (200:ℚ) ≤ 300) ∧
    (pinRender (some false) 100 300 800 200).containerHeight ≠
      CssHeight.px (300 - 100 + 800) := by
  refine ⟨by norm_num, ?_⟩
  simp [pinRender]

/-- C9 amended: provided `pinSpacing` is not `false` (the default), while the
window is active the placeholder height is `(end - start) + viewportHeight`
and the content is fixed-positioned with vertical offset
`max(0, scroll - start)`; outside the window the content is in normal flow
(`relative`) with transform `'none'`. -/
theorem pin_render_amended (pinSpacing : Option Bool)
    (start end_ innerHeight scroll : ℚ) (hps : pinSpacing ≠ some false) :
    ((start ≤ scroll ∧ scroll ≤ end_) →
      (pinRender pinSpacing start end_ innerHeight scroll).containerHeight =
        CssHeight.px (end_ - start + innerHeight) ∧
      (pinRender pinSpacing start end_ innerHeight scroll).contentPosition =
        CssPosition.fixed ∧
      (pinRender pinSpacing start end_ innerHeight scroll).contentTransform =
        CssTransform.translateY (max 0 (scroll - start))) ∧
    (¬(start ≤ scroll ∧ scroll ≤ end_) →
      (pinRender pinSpacing start end_ innerHeight scroll).contentPosition =
        CssPosition.relative ∧
      (pinRender pinSpacing start end_ innerHeight scroll).contentTransform =
        CssTransform.none) := by
  constructor
  · intro hin
    have hact : triggerIsActive start end_ scroll = true :=
      (triggerIsActive_eq_true start end_ scroll).mpr hin
    refine ⟨?_, ?_, ?_⟩ <;> simp [pinRender, hact, hps]
  · intro hout
    have hact : triggerIsActive start end_ scroll = false :=
      (triggerIsActive_eq_false start end_ scroll).mpr hout
    exact ⟨by simp [pinRender, hact], by simp [pinRender, hact]⟩

/-- C9 amended witness: default pin spacing (`none ≠ some false`), window
[100, 300], viewport 800: at scroll 200 the placeholder is 1200px and the
content fixed with offset 100; the out-of-window branch holds vacuously
there. -/
theorem pin_render_amended_witness :
    (((100:ℚ) ≤ 200 ∧ (200:ℚ) ≤ 300) →
      (pinRender none 100 300 800 200).containerHeight =
        CssHeight.px (300 - 100 + 800) ∧
      (pinRender none 100 300 800 200).contentPosition = CssPosition.fixed ∧
      (pinRender none 100 300 800 200).contentTransform =
        CssTransform.translateY (max 0 (200 - 100))) ∧
    (¬((100:ℚ) ≤ 200 ∧ (200:ℚ) ≤ 300) →
      (pinRender none 100 300 800 200).contentPosition = CssPosition.relative ∧
      (pinRender none 100 300 800 200).contentTransform = CssTransform.none) :=
  pin_render_amended none 100 300 800 200 (by simp)

/-- C3 counterexample: the pointer delta (60, 80) has Euclidean distance
exactly 100 = range (since 60² + 80² = 100²), so the claim's formula with
`intensity = max(0, 1 - distance/range)` prescribes a zero x-displacement;
the code instead uses the per-axis distance |60| and outputs
`60 * 0.3 * (1 - 60/100) = 7.2 ≠ 0` (strength 0.3, behavior `attract`,
hovering, not disabled). -/
theorem magnetic_euclidean_counterexample :
    (60:ℚ) ^ 2 + 80 ^ 2 = 100 ^ 2 ∧
    (handleMouseMove false 100 60 80 0 0 ⟨true, 0, 0, 0, 0⟩).1.mouseX = 60 ∧
    transformAxis false true (3/10) 100 MagneticBehavior.attract 60 ≠
      60 * (3/10) * max 0 (1 - 100 / 100) := by
  refine ⟨by norm_num, ?_, ?_⟩
  · simp [handleMouseMove, withinRangeB,
      show (60:ℚ) ^ 2 + 80 ^ 2 ≤ 100 ^ 2 by norm_num]
  · norm_num [transformAxis]

/-- C3 amended: the behavior-transformed falloff is applied per axis, with
the per-axis absolute value |v| in place of the Euclidean distance: for
positive range, each axis's displacement equals
`factor(behavior) * (v * strength * max(0, 1 - |v|/range))`, where the
factor is 1 for `attract`, -1 for `repel` and 2 for `follow` (the branch
returning 0 for |v| > range agrees with this formula, since the max is 0
there). -/
theorem magnetic_axis_amended (strength range v : ℚ)
    (behavior : MagneticBehavior) (hr : 0 < range) :
    transformAxis false true strength range behavior v =
      behaviorFactor behavior * (v * strength * max 0 (1 - |v| / range)) := by
  by_cases hd : |v| > range
  · have hneg : 1 - |v| / range < 0 := by
      rw [sub_neg, lt_div_iff₀ hr]
      linarith
    rw [max_eq_left (le_of_lt hneg)]
    simp [transformAxis, hd]
  · cases behavior <;> simp [transformAxis, hd, behaviorFactor] <;> ring

/-- C3 amended witness: range=100 > 0; with strength 0.3, behavior `attract`
and axis value 60 the displacement is `1 * (60 * 0.3 * max(0, 1 - 60/100))`. -/
theorem magnetic_axis_amended_witness :
    transformAxis false true (3/10) 100 MagneticBehavior.attract 60 =
      behaviorFactor MagneticBehavior.attract *
        (60 * (3/10) * max 0 (1 - |(60:ℚ)| / 100)) :=
  magnetic_axis_amended (3/10) 100 60 MagneticBehavior.attract (by norm_num)

/-- C10: a touch-move sample farther from the center than `range` while
hovering leaves the hover flag and the spring targets unchanged and fires no
`onHover` call; the hover flag is cleared, the targets reset to (0, 0) and
`onHover(false)` fired on touch end — whereas a mouse-move at the same
out-of-range position clears and resets immediately. -/
theorem touchMove_outside_range_keeps_hover
    (range clientX clientY centerX centerY : ℚ) (s : MagneticState)
    (hhov : s.isHovering = true) (hr : 0 ≤ range)
    (hout : range ^ 2 < (clientX - centerX) ^ 2 + (clientY - centerY) ^ 2) :
    ((handleTouchMove false range clientX clientY centerX centerY s).1.isHovering
        = true ∧
      (handleTouchMove false range clientX clientY centerX centerY s).1.mouseX
        = s.mouseX ∧
      (handleTouchMove false range clientX clientY centerX centerY s).1.mouseY
        = s.mouseY ∧
      (handleTouchMove false range clientX clientY centerX centerY s).2 = []) ∧
    ((handleTouchEnd false
        (handleTouchMove false range clientX clientY centerX centerY s).1).1.isHovering
        = false ∧
      (handleTouchEnd false
        (handleTouchMove false range clientX clientY centerX centerY s).1).1.mouseX
        = 0 ∧
      (handleTouchEnd false
        (handleTouchMove false range clientX clientY centerX centerY s).1).1.mouseY
        = 0 ∧
      (handleTouchEnd false
        (handleTouchMove false range clientX clientY centerX centerY s).1).2
        = [false]) ∧
    ((handleMouseMove false range clientX clientY centerX centerY s).1.isHovering
        = false ∧
      (handleMouseMove false range clientX clientY centerX centerY s).1.mouseX
        = 0 ∧
      (handleMouseMove false range clientX clientY centerX centerY s).1.mouseY
        = 0 ∧
      (handleMouseMove false range clientX clientY centerX centerY s).2
        = [false]) := by
  have hw : withinRangeB range (clientX - centerX) (clientY - centerY) = false := by
    simp [withinRangeB, not_le.mpr hout]
  refine ⟨⟨?_, ?_, ?_, ?_⟩, ⟨?_, ?_, ?_, ?_⟩, ⟨?_, ?_, ?_, ?_⟩⟩ <;>
    simp [handleTouchMove, handleMouseMove, handleTouchEnd, hw, hhov]

/-- C10 witness: range 100 >= 0, touch at (150, 0) with center (0, 0)
(distance 150 > 100) while hovering with targets (30, 40): the touch move
keeps hover and targets and fires nothing, touch end and an equivalent
mouse move both clear hover, reset targets and fire `onHover(false)`. -/
theorem touchMove_outside_range_keeps_hover_witness :
    ((handleTouchMove false 100 150 0 0 0 ⟨true, 30, 40, 0, 0⟩).1.isHovering
        = true ∧
      (handleTouchMove false 100 150 0 0 0 ⟨true, 30, 40, 0, 0⟩).1.mouseX = 30 ∧
      (handleTouchMove false 100 150 0 0 0 ⟨true, 30, 40, 0, 0⟩).1.mouseY = 40 ∧
      (handleTouchMove false 100 150 0 0 0 ⟨true, 30, 40, 0, 0⟩).2 = []) ∧
    ((handleTouchEnd false
        (handleTouchMove false 100 150 0 0 0 ⟨true, 30, 40, 0, 0⟩).1).1.isHovering
        = false ∧
      (handleTouchEnd false
        (handleTouchMove false 100 150 0 0 0 ⟨true, 30, 40, 0, 0⟩).1).1.mouseX
        = 0 ∧
      (handleTouchEnd false
        (handleTouchMove false 100 150 0 0 0 ⟨true, 30, 40, 0, 0⟩).1).1.mouseY
        = 0 ∧
      (handleTouchEnd false
        (handleTouchMove false 100 150 0 0 0 ⟨true, 30, 40, 0, 0⟩).1).2
        = [false]) ∧
    ((handleMouseMove false 100 150 0 0 0 ⟨true, 30, 40, 0, 0⟩).1.isHovering
        = false ∧
      (handleMouseMove false 100 150 0 0 0 ⟨true, 30, 40, 0, 0⟩).1.mouseX = 0 ∧
      (handleMouseMove false 100 150 0 0 0 ⟨true, 30, 40, 0, 0⟩).1.mouseY = 0 ∧
      (handleMouseMove false 100 150 0 0 0 ⟨true, 30, 40, 0, 0⟩).2 = [false]) :=
  touchMove_outside_range_keeps_hover 100 150 0 0 0 ⟨true, 30, 40, 0, 0⟩ rfl
    (by norm_num) (by norm_num)

end ScrollEngine
